import Mathlib

/-! Verification of the chat-frontend core of the product-assistant
repository: session identity resolution (frontend/lib/chatApi.js and the
session effect of frontend/src/pages/ProductDetailPage.jsx), the history
fetch (frontend/src/services/api.js), client-side image validation
(ProductDetailPage.jsx and src/components/ImageUpload.jsx), send gating
(ProductDetailPage.jsx, components/chat/ChatInput.jsx,
components/chat/ProductChatWidget.jsx) and the FormData field names of the
two chat submission helpers. Each definition is a shallow embedding of the
JavaScript function it is named after. -/

/-- localStorage viewed through getItem/setItem: an association list read
through its first matching key; setItem conses a fresh binding, which gives
the same observable map as in-place update. -/
abbrev Store := List (String × String)

/-- localStorage.getItem. -/
def lsGetItem (store : Store) (key : String) : Option String :=
  (store.find? (fun p => p.1 == key)).map (fun p => p.2)

/-- localStorage.setItem. -/
def lsSetItem (store : Store) (key v : String) : Store :=
  (key, v) :: store

/-- Fixed-width base-b digits of n, most significant digit first. -/
def toDigits (b : Nat) : Nat → Nat → List Nat
  | 0, _ => []
  | k + 1, n => toDigits b k (n / b) ++ [n % b]

/-- Value of a most-significant-first digit list in base b. -/
def fromDigits (b : Nat) (ds : List Nat) : Nat :=
  ds.foldl (fun acc d => acc * b + d) 0

/-- The digit alphabet used by JavaScript Number.prototype.toString for
radices up to 36; hexadecimal digits are its first 16 characters. -/
def base36Alphabet : List Char := "0123456789abcdefghijklmnopqrstuvwxyz".data

/-- The character of one base-36 (or base-16) digit. -/
def base36Char (d : Nat) : Char := base36Alphabet.getD d '?'

/-- A File object as the validation code reads it: name, MIME type, byte
size. -/
structure JsFile where
  name : String
  type : String
  size : Nat
  deriving DecidableEq

/-- file.type.startsWith('image/'), on the underlying character lists. -/
def isImageType (f : JsFile) : Bool :=
  "image/".data.isPrefixOf f.type.data

/-- JS `!s.trim()`: the string has no non-whitespace character (ASCII
whitespace model). -/
def trimmedEmpty (s : String) : Bool :=
  s.data.all (fun c => c.isWhitespace)

/-- One entry of a FormData body: the field name and the appended value;
an image file is represented by its name. -/
abbrev FormEntry := String × String

/-- One chat message as stored in the page state and in the history
payload. -/
structure ChatMsg where
  role : String
  content : String
  deriving DecidableEq

/-- The JSON body of the history endpoint. -/
structure History where
  session_id : String
  messages : List ChatMsg
  deriving DecidableEq

/-- The outcome of a fetch call: either the promise rejects (network
failure) or a response arrives carrying an ok flag and a parsed body. -/
inductive FetchOutcome where
  | netError : FetchOutcome
  | resp (ok : Bool) (body : History) : FetchOutcome
  deriving DecidableEq

namespace ChatApi

/-- Math.random().toString(36).substr(2, 9): the first nine base-36
fractional digits of the random draw; the draw is modelled as an integer
below 36^9, the number of distinct nine-digit outcomes. -/
def randomSuffix (r : Fin (36 ^ 9)) : String :=
  String.mk ((toDigits 36 9 r.val).map base36Char)

/-- generateSessionId in frontend/lib/chatApi.js:
`session_${Date.now()}_${Math.random().toString(36).substr(2, 9)}`. -/
def generateSessionId (now : Nat) (r : Fin (36 ^ 9)) : String :=
  "session_" ++ toString now ++ "_" ++ randomSuffix r

/-- The localStorage key `chat_session_${productId}`. -/
def sessionKey (productId : String) : String :=
  "chat_session_" ++ productId

/-- The ambient browser state getSessionId reads: whether window is
defined, Date.now(), and the pending Math.random() draw. -/
structure ClientEnv where
  hasWindow : Bool
  now : Nat
  rand : Fin (36 ^ 9)

/-- getSessionId in frontend/lib/chatApi.js. JS `!sessionId` is true both
for a missing key and for the empty string, so an empty stored value is
also regenerated. Outside a browser (no window) a fresh identifier is
returned and nothing is persisted. -/
def getSessionId (env : ClientEnv) (store : Store) (productId : String) :
    String × Store :=
  if env.hasWindow then
    match lsGetItem store (sessionKey productId) with
    | some sid =>
        if sid.length = 0 then
          let sid2 := generateSessionId env.now env.rand
          (sid2, lsSetItem store (sessionKey productId) sid2)
        else (sid, store)
    | none =>
        let sid2 := generateSessionId env.now env.rand
        (sid2, lsSetItem store (sessionKey productId) sid2)
  else
    (generateSessionId env.now env.rand, store)

/-- sendChatMessage in frontend/lib/chatApi.js: the FormData fields it
appends, in order (model_id, message, conversation_id, mode, language,
then one images entry per attachment). -/
def sendChatMessage (productId message sessionId language mode : String)
    (images : List JsFile) : List FormEntry :=
  [("model_id", productId), ("message", message),
   ("conversation_id", sessionId), ("mode", mode), ("language", language)]
    ++ images.map (fun f => ("images", f.name))

end ChatApi

namespace Api

/-- api.sendMessage in frontend/src/services/api.js: the FormData fields of
the multipart branch (images present) and of the text-only branch. The
session identifier is appended only when truthy, under the field name
session_id in the image branch and conversation_id in the text-only
branch. -/
def sendMessage (message modelId mode : String) (imageFiles : List JsFile)
    (sessionId : Option String) : List FormEntry :=
  if imageFiles.length > 0 then
    [("message", message), ("model_id", modelId), ("mode", mode)]
      ++ (match sessionId with
          | some s => if s.length = 0 then [] else [("session_id", s)]
          | none => [])
      ++ imageFiles.map (fun f => ("images", f.name))
  else
    [("message", message), ("model_id", modelId), ("mode", mode)]
      ++ (match sessionId with
          | some s => if s.length = 0 then [] else [("conversation_id", s)]
          | none => [])

/-- api.getConversationHistory in frontend/src/services/api.js: a non-ok
response yields an empty history for the requested session; an ok response
yields its body; a rejected fetch propagates to the caller, since this
function has no try/catch. -/
def getConversationHistory (sessionId : String) (r : FetchOutcome) :
    Except Unit History :=
  match r with
  | .netError => .error ()
  | .resp ok body =>
      if ok then .ok body else .ok { session_id := sessionId, messages := [] }

end Api

namespace ProductDetailPage

/-- The MAX_IMAGES constant of ProductDetailPage.jsx. -/
def MAX_IMAGES : Nat := 3

/-- The localStorage key `session_${modelId}` of the session effect. -/
def sessionKey (modelId : String) : String :=
  "session_" ++ modelId

/-- crypto.randomUUID(): a version-4 UUID. Of the 32 hex nibbles, the
version nibble is the constant 4 and the top two bits of the variant
nibble are the constant 10, leaving 122 random bits: 30 free nibbles
(r / 4, rendered in hex) plus 2 free bits inside the variant nibble
(r % 4, giving a variant character among 8, 9, a, b). -/
def randomUUID (r : Fin (2 ^ 122)) : String :=
  let ds := (toDigits 16 30 (r.val / 4)).map base36Char
  String.mk (ds.take 8 ++ ['-'] ++ (ds.drop 8).take 4 ++ ['-', '4']
    ++ (ds.drop 12).take 3 ++ ['-', base36Char (8 + r.val % 4)]
    ++ (ds.drop 15).take 3 ++ ['-'] ++ ds.drop 18)

/-- The session-init effect of ProductDetailPage.jsx (lines 35-52):
get-or-create under `session_${modelId}` using crypto.randomUUID(), with
the same JS falsiness on the stored value as getSessionId. -/
def sessionInit (store : Store) (modelId : String) (r : Fin (2 ^ 122)) :
    String × Store :=
  match lsGetItem store (sessionKey modelId) with
  | some sid =>
      if sid.length = 0 then
        let sid2 := randomUUID r
        (sid2, lsSetItem store (sessionKey modelId) sid2)
      else (sid, store)
  | none =>
      let sid2 := randomUUID r
      (sid2, lsSetItem store (sessionKey modelId) sid2)

/-- loadConversationHistory in ProductDetailPage.jsx: on a result with a
non-empty message list the messages state is replaced; otherwise (empty
history, or an error caught by the surrounding try) the previous messages
stand and the page proceeds without history. -/
def loadConversationHistory (current : List ChatMsg) (sessionId : String)
    (r : FetchOutcome) : List ChatMsg :=
  match Api.getConversationHistory sessionId r with
  | .error _ => current
  | .ok h => if h.messages.length > 0 then h.messages else current

/-- The entry guard of handleSendMessage in ProductDetailPage.jsx: the
request is issued unless (trimmed message empty and no image selected) or
a request is already in flight. -/
def handleSendMessage_issues (inputMessage : String)
    (selectedImages : List JsFile) (isSending : Bool) : Bool :=
  !((trimmedEmpty inputMessage && selectedImages.isEmpty) || isSending)

/-- The image-selection state of ProductDetailPage.jsx: selectedImages and
uploadError. -/
structure ImgState where
  selectedImages : List JsFile
  uploadError : Option String
  deriving DecidableEq

/-- The validation loop of handleImageSelect: a file failing the type
check or the 5MB size check sets an error message and is skipped; the
rest are collected in order. Returns the valid files and the error
messages set, in order. -/
def validateFiles : List JsFile → List JsFile × List String
  | [] => ([], [])
  | f :: rest =>
      if !(isImageType f) then
        let v := validateFiles rest
        (v.1, "Only images are allowed (PNG, JPG, JPEG, WEBP)" :: v.2)
      else if f.size > 5 * 1024 * 1024 then
        let v := validateFiles rest
        (v.1, "Each file must be less than 5MB" :: v.2)
      else
        let v := validateFiles rest
        (f :: v.1, v.2)

/-- handleImageSelect in ProductDetailPage.jsx. First component: the state
after the handler and its preview callback (which appends the valid files
and clears the error field). Second component: the user-facing error
messages passed to setUploadError while processing, in order. -/
def handleImageSelect (st : ImgState) (files : List JsFile) :
    ImgState × List String :=
  if files.length = 0 then (st, [])
  else
    let remainingSlots := MAX_IMAGES - st.selectedImages.length
    if remainingSlots = 0 then
      ({ st with uploadError := some "Maximum 3 images allowed" },
       ["Maximum 3 images allowed"])
    else
      let filesToAdd := files.take remainingSlots
      let v := validateFiles filesToAdd
      ({ selectedImages := st.selectedImages ++ v.1, uploadError := none },
       v.2)

/-- handleRemoveImage in ProductDetailPage.jsx: drop the entry at the given
index and clear the error. -/
def handleRemoveImage (st : ImgState) (i : Nat) : ImgState :=
  { selectedImages := st.selectedImages.eraseIdx i, uploadError := none }

/-- The image-selection events a user can trigger. -/
inductive ImgEv where
  | select (files : List JsFile) : ImgEv
  | remove (i : Nat) : ImgEv

/-- One image-selection event applied to the page state. -/
def imgStep (st : ImgState) (e : ImgEv) : ImgState :=
  match e with
  | .select files => (handleImageSelect st files).1
  | .remove i => handleRemoveImage st i

/-- The initial image-selection state (useState([]), useState(null)). -/
def initImgState : ImgState :=
  { selectedImages := [], uploadError := none }

/-- The request-relevant chat state of ProductDetailPage.jsx: the
isSending flag and the number of chat requests currently outstanding. -/
structure ChatState where
  isSending : Bool
  inFlight : Nat
  deriving DecidableEq

/-- The chat events: the user triggers handleSendMessage (click or Enter),
or an outstanding request settles (the finally block). -/
inductive ChatEv where
  | send (msg : String) (imgs : List JsFile) : ChatEv
  | finish : ChatEv

/-- The initial chat state. -/
def initChatState : ChatState :=
  { isSending := false, inFlight := 0 }

/-- One step of the ProductDetailPage chat loop: a send event runs
handleSendMessage, which issues a request and sets isSending only when its
entry guard passes; a finish event is the finally block of an outstanding
request (setIsSending(false)). -/
def chatStep (s : ChatState) (e : ChatEv) : ChatState :=
  match e with
  | .send msg imgs =>
      if handleSendMessage_issues msg imgs s.isSending then
        { isSending := true, inFlight := s.inFlight + 1 }
      else s
  | .finish =>
      if s.inFlight > 0 then
        { isSending := false, inFlight := s.inFlight - 1 }
      else s

/-- The disabled attribute of the send button (ProductDetailPage.jsx line
399): `isSending || (!inputMessage.trim() && selectedImages.length === 0)`. -/
def sendDisabled (isSending : Bool) (inputMessage : String)
    (selectedImages : List JsFile) : Bool :=
  isSending || (trimmedEmpty inputMessage && selectedImages.isEmpty)

end ProductDetailPage

namespace ChatInput

/-- The guard of handleSubmit in components/chat/ChatInput.jsx: onSend is
invoked unless the trimmed message is empty and no image is selected. -/
def handleSubmit_sends (message : String) (selectedImage : Option JsFile) :
    Bool :=
  !(trimmedEmpty message && selectedImage.isNone)

end ChatInput

namespace ProductChatWidget

/-- The guard of handleSendMessage in ProductChatWidget.jsx: only the
empty-content check; this handler has no in-flight guard of its own. -/
def handleSendMessage_issues (message : String) (image : Option JsFile) :
    Bool :=
  !(trimmedEmpty message && image.isNone)

/-- The request-relevant widget state: isLoading and the number of
outstanding requests. -/
structure WState where
  isLoading : Bool
  inFlight : Nat
  deriving DecidableEq

/-- Widget events: a submit delivered by ChatInput, or an outstanding
request settling (the finally block). -/
inductive WEv where
  | submit (msg : String) (image : Option JsFile) : WEv
  | finish : WEv

/-- The initial widget state. -/
def initWState : WState :=
  { isLoading := false, inFlight := 0 }

/-- One step of the widget loop. ChatInput receives disabled={isLoading},
so while a request is loading its textarea and submit button are disabled
and a submit event has no effect; an enabled submit runs
ChatInput.handleSubmit and, when its guard passes, handleSendMessage,
which issues the request and sets isLoading. -/
def wStep (s : WState) (e : WEv) : WState :=
  match e with
  | .submit msg image =>
      if s.isLoading then s
      else if ChatInput.handleSubmit_sends msg image then
        { isLoading := true, inFlight := s.inFlight + 1 }
      else s
  | .finish =>
      if s.inFlight > 0 then
        { isLoading := false, inFlight := s.inFlight - 1 }
      else s

end ProductChatWidget

namespace ImageUpload

/-- processFile in src/components/ImageUpload.jsx: the alert message shown
on rejection, and whether onImageSelect is called. -/
def processFile (f : JsFile) : Option String × Bool :=
  if !(isImageType f) then (some "Please upload an image file", false)
  else if f.size > 10 * 1024 * 1024 then
    (some "File size must be less than 10MB", false)
  else (none, true)

end ImageUpload

/-- All identifiers the chatApi session-creation path can produce at a
fixed timestamp, one per possible random draw. -/
def chatSessionIdSpace (now : Nat) : Finset String :=
  Finset.image (ChatApi.generateSessionId now) Finset.univ

/-- All identifiers crypto.randomUUID can produce, one per possible draw of
the 122 random bits. -/
def uuidSpace : Finset String :=
  Finset.image ProductDetailPage.randomUUID Finset.univ

/-! Helper lemmas. -/

theorem lsGetItem_set_same (store : Store) (key v : String) :
    lsGetItem (lsSetItem store key v) key = some v := by
  simp [lsGetItem, lsSetItem]

theorem string_data_append (a b : String) : (a ++ b).data = a.data ++ b.data :=
  rfl

theorem string_length_append (a b : String) :
    (a ++ b).length = a.length + b.length :=
  List.length_append a.data b.data

theorem string_mk_inj {l1 l2 : List Char} (h : String.mk l1 = String.mk l2) :
    l1 = l2 :=
  congrArg String.data h

theorem toDigits_length (b k n : Nat) : (toDigits b k n).length = k := by
  induction k generalizing n with
  | zero => rfl
  | succ k ih => simp [toDigits, ih]

theorem toDigits_lt (b k n : Nat) (hb : 0 < b) :
    ∀ d ∈ toDigits b k n, d < b := by
  induction k generalizing n with
  | zero => intro d hd; simp [toDigits] at hd
  | succ k ih =>
      intro d hd
      simp only [toDigits, List.mem_append, List.mem_singleton] at hd
      rcases hd with hd | hd
      · exact ih (n / b) d hd
      · subst hd; exact Nat.mod_lt _ hb

theorem fromDigits_toDigits (b k n : Nat) (hb : 0 < b) (h : n < b ^ k) :
    fromDigits b (toDigits b k n) = n := by
  induction k generalizing n with
  | zero =>
      have : n = 0 := by
        have := h; simpa using this
      simp [this, toDigits, fromDigits]
  | succ k ih =>
      have hdiv : n / b < b ^ k := by
        rw [Nat.div_lt_iff_lt_mul hb]
        calc n < b ^ (k + 1) := h
        _ = b ^ k * b := by rw [pow_succ]
      have := ih (n / b) hdiv
      simp only [toDigits, fromDigits, List.foldl_append, List.foldl_cons,
        List.foldl_nil]
      simp only [fromDigits] at this
      rw [this, Nat.div_add_mod']

theorem base36Char_fin_inj :
    ∀ d e : Fin 36, base36Char d.val = base36Char e.val → d = e := by
  decide

theorem base36Char_lt_inj {d e : Nat} (hd : d < 36) (he : e < 36)
    (h : base36Char d = base36Char e) : d = e := by
  have := base36Char_fin_inj ⟨d, hd⟩ ⟨e, he⟩ h
  exact congrArg Fin.val this

theorem map_base36Char_inj :
    ∀ xs ys : List Nat, (∀ x ∈ xs, x < 36) → (∀ y ∈ ys, y < 36) →
      xs.map base36Char = ys.map base36Char → xs = ys := by
  intro xs
  induction xs with
  | nil => intro ys _ _ h; cases ys with
      | nil => rfl
      | cons y ys => simp at h
  | cons x xs ih =>
      intro ys hxs hys h
      cases ys with
      | nil => simp at h
      | cons y ys =>
          simp only [List.map_cons, List.cons.injEq] at h
          have hx : x < 36 := hxs x (by simp)
          have hy : y < 36 := hys y (by simp)
          have hhead := base36Char_lt_inj hx hy h.1
          have htail := ih ys (fun a ha => hxs a (by simp [ha]))
            (fun a ha => hys a (by simp [ha])) h.2
          rw [hhead, htail]

theorem mapDigits_inj {b k n m : Nat} (hb0 : 0 < b) (hb : b ≤ 36)
    (hn : n < b ^ k) (hm : m < b ^ k)
    (h : (toDigits b k n).map base36Char = (toDigits b k m).map base36Char) :
    n = m := by
  have hdig := map_base36Char_inj (toDigits b k n) (toDigits b k m)
    (fun x hx => lt_of_lt_of_le (toDigits_lt b k n hb0 x hx) hb)
    (fun x hx => lt_of_lt_of_le (toDigits_lt b k m hb0 x hx) hb) h
  calc n = fromDigits b (toDigits b k n) := (fromDigits_toDigits b k n hb0 hn).symm
  _ = fromDigits b (toDigits b k m) := by rw [hdig]
  _ = m := fromDigits_toDigits b k m hb0 hm

theorem list_take_drop_decomp (l : List Char) :
    l.take 8 ++ ((l.drop 8).take 4 ++ ((l.drop 12).take 3 ++
      ((l.drop 15).take 3 ++ l.drop 18))) = l := by
  have h12 : l.drop 12 = (l.drop 8).drop 4 := by
    rw [List.drop_drop]
  have h15 : l.drop 15 = (l.drop 12).drop 3 := by
    rw [List.drop_drop]
  have h18 : l.drop 18 = (l.drop 15).drop 3 := by
    rw [List.drop_drop]
  rw [h18, List.take_append_drop, h15, List.take_append_drop, h12,
    List.take_append_drop, List.take_append_drop]

theorem uuid_assemble_inj (ds1 ds2 : List Char) (c1 c2 : Char)
    (h1 : ds1.length = 30) (h2 : ds2.length = 30)
    (h : ds1.take 8 ++ ['-'] ++ (ds1.drop 8).take 4 ++ ['-', '4']
        ++ (ds1.drop 12).take 3 ++ ['-', c1]
        ++ (ds1.drop 15).take 3 ++ ['-'] ++ ds1.drop 18 =
      ds2.take 8 ++ ['-'] ++ (ds2.drop 8).take 4 ++ ['-', '4']
        ++ (ds2.drop 12).take 3 ++ ['-', c2]
        ++ (ds2.drop 15).take 3 ++ ['-'] ++ ds2.drop 18) :
    ds1 = ds2 ∧ c1 = c2 := by
  simp only [List.append_assoc, List.cons_append, List.nil_append] at h
  obtain ⟨ht8, hr1⟩ := List.append_inj h
    (by simp [List.length_take, h1, h2])
  simp only [List.cons.injEq, true_and] at hr1
  obtain ⟨hm4, hr2⟩ := List.append_inj hr1
    (by simp [List.length_take, List.length_drop, h1, h2])
  simp only [List.cons.injEq, true_and] at hr2
  obtain ⟨hm3a, hr3⟩ := List.append_inj hr2
    (by simp [List.length_take, List.length_drop, h1, h2])
  simp only [List.cons.injEq, true_and] at hr3
  obtain ⟨hc, hr3x⟩ := hr3
  obtain ⟨hm3b, hr4⟩ := List.append_inj hr3x
    (by simp [List.length_take, List.length_drop, h1, h2])
  simp only [List.cons.injEq, true_and] at hr4
  refine ⟨?_, hc⟩
  rw [← list_take_drop_decomp ds1, ← list_take_drop_decomp ds2,
    ht8, hm4, hm3a, hm3b, hr4]

theorem generateSessionId_data (now : Nat) (r : Fin (36 ^ 9)) :
    (ChatApi.generateSessionId now r).data =
      ("session_" ++ toString now ++ "_").data ++ (ChatApi.randomSuffix r).data := by
  simp [ChatApi.generateSessionId, string_data_append, List.append_assoc]

theorem randomSuffix_data_length (r : Fin (36 ^ 9)) :
    (ChatApi.randomSuffix r).data.length = 9 := by
  simp [ChatApi.randomSuffix, toDigits_length]

theorem generateSessionId_length_pos (now : Nat) (r : Fin (36 ^ 9)) :
    0 < (ChatApi.generateSessionId now r).length := by
  have h : (ChatApi.generateSessionId now r).length =
      ("session_" ++ toString now ++ "_").length + 9 := by
    show (ChatApi.generateSessionId now r).data.length = _
    rw [generateSessionId_data, List.length_append, randomSuffix_data_length]
    rfl
  omega

theorem generateSessionId_rand_inj {n1 n2 : Nat} {r1 r2 : Fin (36 ^ 9)}
    (h : ChatApi.generateSessionId n1 r1 = ChatApi.generateSessionId n2 r2) :
    r1 = r2 := by
  have hd := congrArg String.data h
  rw [generateSessionId_data, generateSessionId_data] at hd
  have hsuffix := (List.append_inj' hd
    (by rw [randomSuffix_data_length, randomSuffix_data_length])).2
  have hmap : (toDigits 36 9 r1.val).map base36Char =
      (toDigits 36 9 r2.val).map base36Char := by
    simpa [ChatApi.randomSuffix] using hsuffix
  exact Fin.ext (mapDigits_inj (by norm_num) (by norm_num) r1.isLt r2.isLt hmap)

theorem randomUUID_inj : Function.Injective ProductDetailPage.randomUUID := by
  intro r1 r2 h
  simp only [ProductDetailPage.randomUUID] at h
  have hL := string_mk_inj h
  have hlen1 : ((toDigits 16 30 (r1.val / 4)).map base36Char).length = 30 := by
    simp [toDigits_length]
  have hlen2 : ((toDigits 16 30 (r2.val / 4)).map base36Char).length = 30 := by
    simp [toDigits_length]
  obtain ⟨hds, hc⟩ := uuid_assemble_inj _ _ _ _ hlen1 hlen2 hL
  have hd1 : r1.val / 4 < 16 ^ 30 := by
    have h1 : (16 : Nat) ^ 30 = 2 ^ 120 := by norm_num
    have h2 : r1.val < 2 ^ 120 * 4 := by
      have := r1.isLt
      have h3 : (2 : Nat) ^ 120 * 4 = 2 ^ 122 := by norm_num
      omega
    rw [h1, Nat.div_lt_iff_lt_mul (by norm_num)]
    exact h2
  have hd2 : r2.val / 4 < 16 ^ 30 := by
    have h1 : (16 : Nat) ^ 30 = 2 ^ 120 := by norm_num
    have h2 : r2.val < 2 ^ 120 * 4 := by
      have := r2.isLt
      have h3 : (2 : Nat) ^ 120 * 4 = 2 ^ 122 := by norm_num
      omega
    rw [h1, Nat.div_lt_iff_lt_mul (by norm_num)]
    exact h2
  have hhi : r1.val / 4 = r2.val / 4 :=
    mapDigits_inj (by norm_num) (by norm_num) hd1 hd2 hds
  have hm1 : r1.val % 4 < 4 := Nat.mod_lt _ (by norm_num)
  have hm2 : r2.val % 4 < 4 := Nat.mod_lt _ (by norm_num)
  have hmod : 8 + r1.val % 4 = 8 + r2.val % 4 :=
    base36Char_lt_inj (by omega) (by omega) hc
  exact Fin.ext (by omega)

theorem validateFiles_sublen : ∀ fs : List JsFile,
    (ProductDetailPage.validateFiles fs).1.length ≤ fs.length := by
  intro fs
  induction fs with
  | nil => simp [ProductDetailPage.validateFiles]
  | cons f rest ih =>
      by_cases h1 : isImageType f = true
      · by_cases h2 : f.size > 5 * 1024 * 1024
        · simp only [ProductDetailPage.validateFiles, h1, if_pos, if_neg,
            Bool.not_true, List.length_cons]
          simp [h2]
          omega
        · simp only [ProductDetailPage.validateFiles, h1, Bool.not_true,
            List.length_cons]
          simp [h2]
          omega
      · have h1x : isImageType f = false := by
          revert h1; cases isImageType f <;> simp
        simp only [ProductDetailPage.validateFiles, h1x, Bool.not_false,
          List.length_cons]
        simp
        omega

theorem validateFiles_mem_valid : ∀ (fs : List JsFile) (f : JsFile),
    f ∈ (ProductDetailPage.validateFiles fs).1 →
    isImageType f = true ∧ f.size ≤ 5 * 1024 * 1024 := by
  intro fs
  induction fs with
  | nil => intro f hf; simp [ProductDetailPage.validateFiles] at hf
  | cons g rest ih =>
      intro f hf
      by_cases h1 : isImageType g = true
      · by_cases h2 : g.size > 5 * 1024 * 1024
        · simp only [ProductDetailPage.validateFiles, h1, Bool.not_true] at hf
          simp [h2] at hf
          exact ih f hf
        · simp only [ProductDetailPage.validateFiles, h1, Bool.not_true] at hf
          simp [h2] at hf
          rcases hf with hf | hf
          · subst hf; exact ⟨h1, by omega⟩
          · exact ih f hf
      · have h1x : isImageType g = false := by
          revert h1; cases isImageType g <;> simp
        simp only [ProductDetailPage.validateFiles, h1x, Bool.not_false] at hf
        simp at hf
        exact ih f hf

theorem validateFiles_type_msg : ∀ (fs : List JsFile) (f : JsFile), f ∈ fs →
    isImageType f = false →
    "Only images are allowed (PNG, JPG, JPEG, WEBP)" ∈
      (ProductDetailPage.validateFiles fs).2 := by
  intro fs
  induction fs with
  | nil => intro f hf; simp at hf
  | cons g rest ih =>
      intro f hf hbad
      rcases List.mem_cons.mp hf with hf | hf
      · subst hf
        simp [ProductDetailPage.validateFiles, hbad]
      · by_cases h1 : isImageType g = true
        · by_cases h2 : g.size > 5 * 1024 * 1024
          · simp only [ProductDetailPage.validateFiles, h1, Bool.not_true]
            simp [h2]
            exact ih f hf hbad
          · simp only [ProductDetailPage.validateFiles, h1, Bool.not_true]
            simp [h2]
            exact ih f hf hbad
        · have h1x : isImageType g = false := by
            revert h1; cases isImageType g <;> simp
          simp only [ProductDetailPage.validateFiles, h1x, Bool.not_false]
          simp

theorem validateFiles_size_msg : ∀ (fs : List JsFile) (f : JsFile), f ∈ fs →
    isImageType f = true → 5 * 1024 * 1024 < f.size →
    "Each file must be less than 5MB" ∈
      (ProductDetailPage.validateFiles fs).2 := by
  intro fs
  induction fs with
  | nil => intro f hf; simp at hf
  | cons g rest ih =>
      intro f hf hok hbig
      rcases List.mem_cons.mp hf with hf | hf
      · subst hf
        simp [ProductDetailPage.validateFiles, hok, hbig]
      · by_cases h1 : isImageType g = true
        · by_cases h2 : g.size > 5 * 1024 * 1024
          · simp only [ProductDetailPage.validateFiles, h1, Bool.not_true]
            simp [h2]
          · simp only [ProductDetailPage.validateFiles, h1, Bool.not_true]
            simp [h2]
            exact ih f hf hok hbig
        · have h1x : isImageType g = false := by
            revert h1; cases isImageType g <;> simp
          simp only [ProductDetailPage.validateFiles, h1x, Bool.not_false]
          simp
          exact ih f hf hok hbig

theorem foldl_inv_preserved {α β : Type} (P : α → Prop) (step : α → β → α)
    (hstep : ∀ s e, P s → P (step s e)) :
    ∀ (l : List β) (s : α), P s → P (l.foldl step s)
  | [], _, h => h
  | e :: l, s, h =>
      foldl_inv_preserved P step hstep l (step s e) (hstep s e h)

theorem length_eraseIdx_le {α : Type} : ∀ (l : List α) (i : Nat),
    (l.eraseIdx i).length ≤ l.length
  | [], _ => by simp [List.eraseIdx]
  | _ :: l, 0 => by simp [List.eraseIdx]
  | a :: l, i + 1 => by
      simp only [List.eraseIdx, List.length_cons]
      exact Nat.succ_le_succ (length_eraseIdx_le l i)

theorem handleImageSelect_len (st : ProductDetailPage.ImgState)
    (files : List JsFile) (h : st.selectedImages.length ≤ 3) :
    (ProductDetailPage.handleImageSelect st files).1.selectedImages.length ≤ 3 := by
  by_cases h0 : files.length = 0
  · simpa [ProductDetailPage.handleImageSelect, h0] using h
  · by_cases hr : ProductDetailPage.MAX_IMAGES - st.selectedImages.length = 0
    · simpa [ProductDetailPage.handleImageSelect, h0, hr] using h
    · have hv := validateFiles_sublen
        (files.take (ProductDetailPage.MAX_IMAGES - st.selectedImages.length))
      have ht : (files.take
          (ProductDetailPage.MAX_IMAGES - st.selectedImages.length)).length ≤
          ProductDetailPage.MAX_IMAGES - st.selectedImages.length := by
        simp [List.length_take]
      simp [ProductDetailPage.handleImageSelect, h0, hr]
      simp only [ProductDetailPage.MAX_IMAGES] at hr ht hv ⊢
      omega

theorem chatStep_inv_step (s : ProductDetailPage.ChatState)
    (e : ProductDetailPage.ChatEv)
    (h : s.inFlight = (if s.isSending then 1 else 0)) :
    (ProductDetailPage.chatStep s e).inFlight =
      (if (ProductDetailPage.chatStep s e).isSending then 1 else 0) := by
  cases e with
  | send msg imgs =>
      cases hs : s.isSending with
      | true =>
          rw [hs] at h
          simp at h
          simp [ProductDetailPage.chatStep,
            ProductDetailPage.handleSendMessage_issues, hs, h]
      | false =>
          rw [hs] at h
          simp at h
          cases hc : (trimmedEmpty msg && imgs.isEmpty) with
          | true =>
              simp [ProductDetailPage.chatStep,
                ProductDetailPage.handleSendMessage_issues, hs, hc, h]
          | false =>
              simp [ProductDetailPage.chatStep,
                ProductDetailPage.handleSendMessage_issues, hs, hc, h]
  | finish =>
      cases hs : s.isSending with
      | true =>
          rw [hs] at h
          simp at h
          simp [ProductDetailPage.chatStep, h, hs]
      | false =>
          rw [hs] at h
          simp at h
          simp [ProductDetailPage.chatStep, h, hs]

theorem chatTrace_inv (evs : List ProductDetailPage.ChatEv) :
    (evs.foldl ProductDetailPage.chatStep ProductDetailPage.initChatState).inFlight =
      (if (evs.foldl ProductDetailPage.chatStep
          ProductDetailPage.initChatState).isSending then 1 else 0) :=
  foldl_inv_preserved
    (fun s => s.inFlight = (if s.isSending then 1 else 0))
    ProductDetailPage.chatStep chatStep_inv_step evs
    ProductDetailPage.initChatState rfl

theorem wStep_inv_step (s : ProductChatWidget.WState)
    (e : ProductChatWidget.WEv)
    (h : s.inFlight = (if s.isLoading then 1 else 0)) :
    (ProductChatWidget.wStep s e).inFlight =
      (if (ProductChatWidget.wStep s e).isLoading then 1 else 0) := by
  cases e with
  | submit msg image =>
      cases hs : s.isLoading with
      | true =>
          rw [hs] at h
          simp at h
          simp [ProductChatWidget.wStep, hs, h]
      | false =>
          rw [hs] at h
          simp at h
          cases hc : ChatInput.handleSubmit_sends msg image with
          | true => simp [ProductChatWidget.wStep, hs, hc, h]
          | false => simp [ProductChatWidget.wStep, hs, hc, h]
  | finish =>
      cases hs : s.isLoading with
      | true =>
          rw [hs] at h
          simp at h
          simp [ProductChatWidget.wStep, h, hs]
      | false =>
          rw [hs] at h
          simp at h
          simp [ProductChatWidget.wStep, h, hs]

theorem wTrace_inv (evs : List ProductChatWidget.WEv) :
    (evs.foldl ProductChatWidget.wStep ProductChatWidget.initWState).inFlight =
      (if (evs.foldl ProductChatWidget.wStep
          ProductChatWidget.initWState).isLoading then 1 else 0) :=
  foldl_inv_preserved
    (fun s => s.inFlight = (if s.isLoading then 1 else 0))
    ProductChatWidget.wStep wStep_inv_step evs
    ProductChatWidget.initWState rfl

/-! Claim theorems. -/

/-- Claim C1, counterexample. The claim asserts that every identifier
produced on the session-creation path contains at least 122 bits of
randomness. On the chatApi path the random source contributes nine base-36
characters, so at a fixed timestamp generateSessionId can produce at most
36^9 distinct identifiers, strictly fewer than 2^122 — fewer than 122 bits
of randomness. -/
theorem C1_counterexample : (chatSessionIdSpace 0).card < 2 ^ 122 := by
  have h1 : (chatSessionIdSpace 0).card ≤ 36 ^ 9 := by
    calc (chatSessionIdSpace 0).card
        ≤ (Finset.univ : Finset (Fin (36 ^ 9))).card := Finset.card_image_le
      _ = 36 ^ 9 := by rw [Finset.card_univ, Fintype.card_fin]
  have h2 : (36 : Nat) ^ 9 < 2 ^ 122 := by norm_num
  omega

/-- Claim C1, amended: when no session identifier is persisted for the
product, each session-creation path generates a fresh identifier and
persists it keyed by the product identifier before returning it; the
ProductDetailPage path draws from exactly 2^122 distinct identifiers
(crypto.randomUUID, 122 bits of randomness), while the chatApi getSessionId
path draws from at most 36^9 < 2^122 identifiers at a fixed timestamp. -/
theorem C1_amended (store : Store) (productId modelId : String) (now : Nat)
    (rc : Fin (36 ^ 9)) (ru : Fin (2 ^ 122))
    (hc : lsGetItem store (ChatApi.sessionKey productId) = none)
    (hp : lsGetItem store (ProductDetailPage.sessionKey modelId) = none) :
    ChatApi.getSessionId ⟨true, now, rc⟩ store productId =
      (ChatApi.generateSessionId now rc,
        lsSetItem store (ChatApi.sessionKey productId)
          (ChatApi.generateSessionId now rc)) ∧
    lsGetItem (ChatApi.getSessionId ⟨true, now, rc⟩ store productId).2
        (ChatApi.sessionKey productId) =
      some (ChatApi.getSessionId ⟨true, now, rc⟩ store productId).1 ∧
    ProductDetailPage.sessionInit store modelId ru =
      (ProductDetailPage.randomUUID ru,
        lsSetItem store (ProductDetailPage.sessionKey modelId)
          (ProductDetailPage.randomUUID ru)) ∧
    lsGetItem (ProductDetailPage.sessionInit store modelId ru).2
        (ProductDetailPage.sessionKey modelId) =
      some (ProductDetailPage.sessionInit store modelId ru).1 ∧
    (chatSessionIdSpace now).card ≤ 36 ^ 9 ∧
    uuidSpace.card = 2 ^ 122 := by
  have e1 : ChatApi.getSessionId ⟨true, now, rc⟩ store productId =
      (ChatApi.generateSessionId now rc,
        lsSetItem store (ChatApi.sessionKey productId)
          (ChatApi.generateSessionId now rc)) := by
    simp only [ChatApi.getSessionId, hc]
    rfl
  have e2 : ProductDetailPage.sessionInit store modelId ru =
      (ProductDetailPage.randomUUID ru,
        lsSetItem store (ProductDetailPage.sessionKey modelId)
          (ProductDetailPage.randomUUID ru)) := by
    simp only [ProductDetailPage.sessionInit, hp]
  refine ⟨e1, ?_, e2, ?_, ?_, ?_⟩
  · rw [e1]
    exact lsGetItem_set_same store _ _
  · rw [e2]
    exact lsGetItem_set_same store _ _
  · calc (chatSessionIdSpace now).card
        ≤ (Finset.univ : Finset (Fin (36 ^ 9))).card := Finset.card_image_le
      _ = 36 ^ 9 := by rw [Finset.card_univ, Fintype.card_fin]
  · rw [uuidSpace, Finset.card_image_of_injective _ randomUUID_inj,
      Finset.card_univ, Fintype.card_fin]

/-- Witness for C1_amended at a concrete empty store, product "p", model
"m", timestamp 0 and draws 0. -/
theorem C1_witness :
    lsGetItem ([] : Store) (ChatApi.sessionKey "p") = none ∧
    lsGetItem ([] : Store) (ProductDetailPage.sessionKey "m") = none ∧
    (ChatApi.getSessionId ⟨true, 0, ⟨0, by norm_num⟩⟩ [] "p" =
      (ChatApi.generateSessionId 0 ⟨0, by norm_num⟩,
        lsSetItem [] (ChatApi.sessionKey "p")
          (ChatApi.generateSessionId 0 ⟨0, by norm_num⟩)) ∧
    lsGetItem (ChatApi.getSessionId ⟨true, 0, ⟨0, by norm_num⟩⟩ [] "p").2
        (ChatApi.sessionKey "p") =
      some (ChatApi.getSessionId ⟨true, 0, ⟨0, by norm_num⟩⟩ [] "p").1 ∧
    ProductDetailPage.sessionInit [] "m" ⟨0, by norm_num⟩ =
      (ProductDetailPage.randomUUID ⟨0, by norm_num⟩,
        lsSetItem [] (ProductDetailPage.sessionKey "m")
          (ProductDetailPage.randomUUID ⟨0, by norm_num⟩)) ∧
    lsGetItem (ProductDetailPage.sessionInit [] "m" ⟨0, by norm_num⟩).2
        (ProductDetailPage.sessionKey "m") =
      some (ProductDetailPage.sessionInit [] "m" ⟨0, by norm_num⟩).1 ∧
    (chatSessionIdSpace 0).card ≤ 36 ^ 9 ∧
    uuidSpace.card = 2 ^ 122) :=
  ⟨rfl, rfl,
    C1_amended [] "p" "m" 0 ⟨0, by norm_num⟩ ⟨0, by norm_num⟩ rfl rfl⟩

/-- Claim C2: in a browser context, two successive getSessionId calls for
the same product identifier with unchanged persisted storage return the
same session identifier, and the second call leaves the storage
unchanged. -/
theorem C2_idempotent (store : Store) (productId : String) (n1 n2 : Nat)
    (r1 r2 : Fin (36 ^ 9)) :
    (ChatApi.getSessionId ⟨true, n2, r2⟩
        (ChatApi.getSessionId ⟨true, n1, r1⟩ store productId).2 productId).1 =
      (ChatApi.getSessionId ⟨true, n1, r1⟩ store productId).1 ∧
    (ChatApi.getSessionId ⟨true, n2, r2⟩
        (ChatApi.getSessionId ⟨true, n1, r1⟩ store productId).2 productId).2 =
      (ChatApi.getSessionId ⟨true, n1, r1⟩ store productId).2 := by
  have hlen := generateSessionId_length_pos n1 r1
  have hlz : ¬ (ChatApi.generateSessionId n1 r1).length = 0 := by omega
  simp only [ChatApi.getSessionId]
  cases hs : lsGetItem store (ChatApi.sessionKey productId) with
  | none =>
      simp only [hs, lsGetItem_set_same, if_true]
      simp [hlz]
  | some sid =>
      by_cases hz : sid.length = 0
      · simp only [hs, hz, if_true, lsGetItem_set_same]
        simp [hlz, hz]
      · simp only [hs]
        simp [hs, hz]

/-- Claim C3: when persistent client storage is unavailable — which the
source detects as window being undefined — getSessionId still returns a
freshly generated identifier, performs no storage write (so the identifier
is valid only for the current in-memory session), and its embedding is a
total function: no exception reaches the caller on this path. -/
theorem C3_degraded (store : Store) (productId : String)
    (env : ChatApi.ClientEnv) (h : env.hasWindow = false) :
    ChatApi.getSessionId env store productId =
      (ChatApi.generateSessionId env.now env.rand, store) := by
  simp only [ChatApi.getSessionId, h]
  rfl

/-- Witness for C3_degraded with a concrete no-window environment. -/
theorem C3_witness :
    (⟨false, 0, ⟨0, by norm_num⟩⟩ : ChatApi.ClientEnv).hasWindow = false ∧
    ChatApi.getSessionId ⟨false, 0, ⟨0, by norm_num⟩⟩ [] "p" =
      (ChatApi.generateSessionId 0 ⟨0, by norm_num⟩, []) :=
  ⟨rfl, C3_degraded [] "p" ⟨false, 0, ⟨0, by norm_num⟩⟩ rfl⟩

/-- Claim C4: getConversationHistory returns the body's ordered message
sequence on an ok response, returns a result with an empty messages list
on a non-ok response (never an error for missing history), and the caller
loadConversationHistory keeps its previous messages — proceeding without
history — both on an empty history and on a rejected fetch. -/
theorem C4_history_fetch (sessionId : String) (body : History)
    (prev : List ChatMsg) :
    Api.getConversationHistory sessionId (.resp true body) = .ok body ∧
    Api.getConversationHistory sessionId (.resp false body) =
      .ok { session_id := sessionId, messages := [] } ∧
    ProductDetailPage.loadConversationHistory prev sessionId
      (.resp false body) = prev ∧
    ProductDetailPage.loadConversationHistory prev sessionId
      .netError = prev := by
  refine ⟨rfl, rfl, ?_, rfl⟩
  simp [ProductDetailPage.loadConversationHistory, Api.getConversationHistory]

/-- Claim C10: outside a browser context (window undefined), getSessionId
generates and returns a fresh identifier on every call and persists
nothing; two calls whose random draws differ return different identifiers,
so the per-product idempotence guarantee does not extend to this path. -/
theorem C10_no_window (store : Store) (productId : String) (n1 n2 : Nat)
    (r1 r2 : Fin (36 ^ 9)) (h : r1 ≠ r2) :
    ChatApi.getSessionId ⟨false, n1, r1⟩ store productId =
      (ChatApi.generateSessionId n1 r1, store) ∧
    ChatApi.getSessionId ⟨false, n2, r2⟩ store productId =
      (ChatApi.generateSessionId n2 r2, store) ∧
    ChatApi.generateSessionId n1 r1 ≠ ChatApi.generateSessionId n2 r2 := by
  refine ⟨rfl, rfl, ?_⟩
  intro he
  exact h (generateSessionId_rand_inj he)

/-- Witness for C10_no_window at draws 0 and 1. -/
theorem C10_witness :
    (⟨0, by norm_num⟩ : Fin (36 ^ 9)) ≠ ⟨1, by norm_num⟩ ∧
    (ChatApi.getSessionId ⟨false, 0, ⟨0, by norm_num⟩⟩ [] "p" =
      (ChatApi.generateSessionId 0 ⟨0, by norm_num⟩, []) ∧
    ChatApi.getSessionId ⟨false, 1, ⟨1, by norm_num⟩⟩ [] "p" =
      (ChatApi.generateSessionId 1 ⟨1, by norm_num⟩, []) ∧
    ChatApi.generateSessionId 0 ⟨0, by norm_num⟩ ≠
      ChatApi.generateSessionId 1 ⟨1, by norm_num⟩) :=
  ⟨Fin.ne_of_val_ne (by norm_num),
    C10_no_window [] "p" 0 1 ⟨0, by norm_num⟩ ⟨1, by norm_num⟩
      (Fin.ne_of_val_ne (by norm_num))⟩

/-- Claim C5: a file that is not an image type or exceeds the size limit
is rejected client-side with its specific user-facing reason (unsupported
type / file size) and is never added to selectedImages — the only source
of attachments for chat requests; the same holds for processFile in the
room-analysis uploader with its 10MB limit. -/
theorem C5_image_validation (st : ProductDetailPage.ImgState)
    (files : List JsFile) (f : JsFile)
    (hmem : f ∈ files.take
      (ProductDetailPage.MAX_IMAGES - st.selectedImages.length))
    (hnotin : f ∉ st.selectedImages) :
    (isImageType f = false →
      "Only images are allowed (PNG, JPG, JPEG, WEBP)" ∈
        (ProductDetailPage.handleImageSelect st files).2 ∧
      f ∉ (ProductDetailPage.handleImageSelect st files).1.selectedImages ∧
      ImageUpload.processFile f = (some "Please upload an image file", false)) ∧
    (isImageType f = true → 5 * 1024 * 1024 < f.size →
      "Each file must be less than 5MB" ∈
        (ProductDetailPage.handleImageSelect st files).2 ∧
      f ∉ (ProductDetailPage.handleImageSelect st files).1.selectedImages) ∧
    (isImageType f = true → 10 * 1024 * 1024 < f.size →
      ImageUpload.processFile f =
        (some "File size must be less than 10MB", false)) := by
  have h0 : ¬ files.length = 0 := by
    intro hx
    rw [List.length_eq_zero] at hx
    subst hx
    simp at hmem
  have hr : ¬ (ProductDetailPage.MAX_IMAGES - st.selectedImages.length) = 0 := by
    intro hx
    rw [hx] at hmem
    simp at hmem
  have hmain : ProductDetailPage.handleImageSelect st files =
      ({ selectedImages := st.selectedImages ++
          (ProductDetailPage.validateFiles (files.take
            (ProductDetailPage.MAX_IMAGES - st.selectedImages.length))).1,
         uploadError := none },
       (ProductDetailPage.validateFiles (files.take
         (ProductDetailPage.MAX_IMAGES - st.selectedImages.length))).2) := by
    simp [ProductDetailPage.handleImageSelect, h0, hr]
  refine ⟨?_, ?_, ?_⟩
  · intro hbad
    refine ⟨?_, ?_, ?_⟩
    · rw [hmain]
      exact validateFiles_type_msg _ f hmem hbad
    · rw [hmain]
      intro hx
      rcases List.mem_append.mp hx with hx | hx
      · exact hnotin hx
      · have hv := (validateFiles_mem_valid _ f hx).1
        rw [hbad] at hv
        exact Bool.false_ne_true hv
    · simp [ImageUpload.processFile, hbad]
  · intro hok hbig
    refine ⟨?_, ?_⟩
    · rw [hmain]
      exact validateFiles_size_msg _ f hmem hok hbig
    · rw [hmain]
      intro hx
      rcases List.mem_append.mp hx with hx | hx
      · exact hnotin hx
      · have hv := (validateFiles_mem_valid _ f hx).2
        omega
  · intro hok hbig
    simp [ImageUpload.processFile, hok, hbig]

/-- Witness for C5_image_validation: one text/plain file offered to an
empty selection. -/
theorem C5_witness :
    (⟨"a.txt", "text/plain", 10⟩ : JsFile) ∈
      ([⟨"a.txt", "text/plain", 10⟩] : List JsFile).take
        (ProductDetailPage.MAX_IMAGES -
          ProductDetailPage.initImgState.selectedImages.length) ∧
    (⟨"a.txt", "text/plain", 10⟩ : JsFile) ∉
      ProductDetailPage.initImgState.selectedImages ∧
    ((isImageType ⟨"a.txt", "text/plain", 10⟩ = false →
      "Only images are allowed (PNG, JPG, JPEG, WEBP)" ∈
        (ProductDetailPage.handleImageSelect ProductDetailPage.initImgState
          [⟨"a.txt", "text/plain", 10⟩]).2 ∧
      (⟨"a.txt", "text/plain", 10⟩ : JsFile) ∉
        (ProductDetailPage.handleImageSelect ProductDetailPage.initImgState
          [⟨"a.txt", "text/plain", 10⟩]).1.selectedImages ∧
      ImageUpload.processFile ⟨"a.txt", "text/plain", 10⟩ =
        (some "Please upload an image file", false)) ∧
    (isImageType ⟨"a.txt", "text/plain", 10⟩ = true →
      5 * 1024 * 1024 < (⟨"a.txt", "text/plain", 10⟩ : JsFile).size →
      "Each file must be less than 5MB" ∈
        (ProductDetailPage.handleImageSelect ProductDetailPage.initImgState
          [⟨"a.txt", "text/plain", 10⟩]).2 ∧
      (⟨"a.txt", "text/plain", 10⟩ : JsFile) ∉
        (ProductDetailPage.handleImageSelect ProductDetailPage.initImgState
          [⟨"a.txt", "text/plain", 10⟩]).1.selectedImages) ∧
    (isImageType ⟨"a.txt", "text/plain", 10⟩ = true →
      10 * 1024 * 1024 < (⟨"a.txt", "text/plain", 10⟩ : JsFile).size →
      ImageUpload.processFile ⟨"a.txt", "text/plain", 10⟩ =
        (some "File size must be less than 10MB", false))) :=
  ⟨by decide, by decide,
    C5_image_validation ProductDetailPage.initImgState
      [⟨"a.txt", "text/plain", 10⟩] ⟨"a.txt", "text/plain", 10⟩
      (by decide) (by decide)⟩

/-- Claim C6, counterexample: with a request already in flight
(isSending = true), handleSendMessage in ProductDetailPage.jsx issues no
submission even though the trimmed message "hello" is non-empty, so
"issued if and only if the trimmed text is non-empty or an image is
attached" fails as stated. -/
theorem C6_counterexample :
    ¬ (ProductDetailPage.handleSendMessage_issues "hello" [] true = true ↔
        (trimmedEmpty "hello" = false ∨ ([] : List JsFile).length ≠ 0)) := by
  decide

/-- Claim C6, amended: a chat submission is issued iff the trimmed message
is non-empty or an image is attached AND, on the ProductDetailPage path,
no request is already in flight; the ChatInput/ProductChatWidget handlers
carry exactly the content condition. -/
theorem C6_amended (msg : String) (imgs : List JsFile) (isSending : Bool)
    (image : Option JsFile) :
    (ProductDetailPage.handleSendMessage_issues msg imgs isSending = true ↔
      ((trimmedEmpty msg = false ∨ imgs.length ≠ 0) ∧ isSending = false)) ∧
    (ChatInput.handleSubmit_sends msg image = true ↔
      (trimmedEmpty msg = false ∨ image.isSome = true)) ∧
    (ProductChatWidget.handleSendMessage_issues msg image = true ↔
      (trimmedEmpty msg = false ∨ image.isSome = true)) := by
  refine ⟨?_, ?_, ?_⟩
  · cases ht : trimmedEmpty msg <;> cases isSending <;> cases imgs <;>
      simp [ProductDetailPage.handleSendMessage_issues, ht]
  · cases ht : trimmedEmpty msg <;> cases image <;>
      simp [ChatInput.handleSubmit_sends, ht]
  · cases ht : trimmedEmpty msg <;> cases image <;>
      simp [ProductChatWidget.handleSendMessage_issues, ht]

/-- Claim C7: on the ProductDetailPage client, at most one chat request is
ever in flight over any event trace; while one is in flight
(isSending = true) a further send event leaves the state unchanged — the
handler returns without sending — and the send button is disabled; the
widget client, whose ChatInput is disabled while loading, also keeps at
most one request in flight, so turn appends are issued serially in send
order. -/
theorem C7_serialized (evs : List ProductDetailPage.ChatEv)
    (wevs : List ProductChatWidget.WEv) (msg : String) (imgs : List JsFile) :
    (evs.foldl ProductDetailPage.chatStep
      ProductDetailPage.initChatState).inFlight ≤ 1 ∧
    ((evs.foldl ProductDetailPage.chatStep
        ProductDetailPage.initChatState).isSending = true →
      ProductDetailPage.chatStep
          (evs.foldl ProductDetailPage.chatStep
            ProductDetailPage.initChatState) (.send msg imgs) =
        evs.foldl ProductDetailPage.chatStep ProductDetailPage.initChatState ∧
      ProductDetailPage.sendDisabled true msg imgs = true) ∧
    (wevs.foldl ProductChatWidget.wStep
      ProductChatWidget.initWState).inFlight ≤ 1 := by
  have hinv := chatTrace_inv evs
  have hwinv := wTrace_inv wevs
  refine ⟨?_, ?_, ?_⟩
  · rw [hinv]
    split <;> norm_num
  · intro hs
    refine ⟨?_, ?_⟩
    · simp [ProductDetailPage.chatStep,
        ProductDetailPage.handleSendMessage_issues, hs]
    · simp [ProductDetailPage.sendDisabled]
  · rw [hwinv]
    split <;> norm_num

/-- Witness for C7_serialized: one completed send on the page trace,
an empty widget trace, and a pending second message "x". -/
theorem C7_witness :
    ([ProductDetailPage.ChatEv.send "hi" []].foldl ProductDetailPage.chatStep
      ProductDetailPage.initChatState).inFlight ≤ 1 ∧
    (([ProductDetailPage.ChatEv.send "hi" []].foldl ProductDetailPage.chatStep
        ProductDetailPage.initChatState).isSending = true →
      ProductDetailPage.chatStep
          ([ProductDetailPage.ChatEv.send "hi" []].foldl
            ProductDetailPage.chatStep ProductDetailPage.initChatState)
          (.send "x" []) =
        [ProductDetailPage.ChatEv.send "hi" []].foldl
          ProductDetailPage.chatStep ProductDetailPage.initChatState ∧
      ProductDetailPage.sendDisabled true "x" [] = true) ∧
    (([] : List ProductChatWidget.WEv).foldl ProductChatWidget.wStep
      ProductChatWidget.initWState).inFlight ≤ 1 :=
  C7_serialized [ProductDetailPage.ChatEv.send "hi" []] [] "x" []

/-- Claim C8: the code does not use a single canonical field name for the
session identifier: api.sendMessage labels it session_id when images are
attached but conversation_id when not, while sendChatMessage always uses
conversation_id. Evaluated at a concrete submission each way. -/
theorem C8_field_mismatch :
    (Api.sendMessage "hi" "m1" "PRE_PURCHASE" [⟨"a.png", "image/png", 4⟩]
        (some "s1")).filter
      (fun p => p.1 == "session_id" || p.1 == "conversation_id") =
      [("session_id", "s1")] ∧
    (Api.sendMessage "hi" "m1" "PRE_PURCHASE" [] (some "s1")).filter
      (fun p => p.1 == "session_id" || p.1 == "conversation_id") =
      [("conversation_id", "s1")] ∧
    (ChatApi.sendChatMessage "m1" "hi" "s1" "en" "PRE_PURCHASE" []).filter
      (fun p => p.1 == "session_id" || p.1 == "conversation_id") =
      [("conversation_id", "s1")] ∧
    ("session_id" : String) ≠ "conversation_id" := by
  decide

/-- Claim C9: at most 3 images per submission. When some images are
already selected, at most MAX_IMAGES minus the current count of the
offered files pass validation; attempting to add when 3 are already
selected yields exactly the error "Maximum 3 images allowed" and leaves
the selection unchanged; and over any trace of select/remove events from
the empty state the selection — the images a submission carries — never
exceeds 3. -/
theorem C9_image_cap (st : ProductDetailPage.ImgState) (files : List JsFile)
    (evs : List ProductDetailPage.ImgEv) :
    (st.selectedImages.length ≤ 3 →
      (ProductDetailPage.handleImageSelect st files).1.selectedImages.length
        ≤ 3) ∧
    (ProductDetailPage.validateFiles (files.take
        (ProductDetailPage.MAX_IMAGES - st.selectedImages.length))).1.length ≤
      ProductDetailPage.MAX_IMAGES - st.selectedImages.length ∧
    (st.selectedImages.length = 3 → files ≠ [] →
      ProductDetailPage.handleImageSelect st files =
        ({ selectedImages := st.selectedImages,
           uploadError := some "Maximum 3 images allowed" },
         ["Maximum 3 images allowed"])) ∧
    (evs.foldl ProductDetailPage.imgStep
      ProductDetailPage.initImgState).selectedImages.length ≤ 3 := by
  refine ⟨fun h => handleImageSelect_len st files h, ?_, ?_, ?_⟩
  · refine le_trans (validateFiles_sublen _) ?_
    simp [List.length_take]
  · intro hfull hne
    have h0 : ¬ files.length = 0 := by
      intro hx
      rw [List.length_eq_zero] at hx
      exact hne hx
    have hr : ProductDetailPage.MAX_IMAGES - st.selectedImages.length = 0 := by
      simp [ProductDetailPage.MAX_IMAGES, hfull]
    simp [ProductDetailPage.handleImageSelect, h0, hr]
  · refine foldl_inv_preserved
      (fun s => s.selectedImages.length ≤ 3) ProductDetailPage.imgStep
      ?_ evs ProductDetailPage.initImgState (by simp [ProductDetailPage.initImgState])
    intro s e hP
    cases e with
    | select fs => exact handleImageSelect_len s fs hP
    | remove i =>
        simp only [ProductDetailPage.imgStep, ProductDetailPage.handleRemoveImage]
        exact le_trans (length_eraseIdx_le _ _) hP

/-- Witness for C9_image_cap: a full selection of three images offered a
fourth file, over the trace that selects those three images. -/
theorem C9_witness :
    ((⟨[⟨"a", "image/png", 1⟩, ⟨"b", "image/png", 1⟩, ⟨"c", "image/png", 1⟩],
        none⟩ : ProductDetailPage.ImgState).selectedImages.length ≤ 3 →
      (ProductDetailPage.handleImageSelect
        ⟨[⟨"a", "image/png", 1⟩, ⟨"b", "image/png", 1⟩, ⟨"c", "image/png", 1⟩],
          none⟩
        [⟨"d", "image/png", 1⟩]).1.selectedImages.length ≤ 3) ∧
    (ProductDetailPage.validateFiles ([⟨"d", "image/png", 1⟩].take
        (ProductDetailPage.MAX_IMAGES -
          (⟨[⟨"a", "image/png", 1⟩, ⟨"b", "image/png", 1⟩,
              ⟨"c", "image/png", 1⟩], none⟩ :
            ProductDetailPage.ImgState).selectedImages.length))).1.length ≤
      ProductDetailPage.MAX_IMAGES -
        (⟨[⟨"a", "image/png", 1⟩, ⟨"b", "image/png", 1⟩,
            ⟨"c", "image/png", 1⟩], none⟩ :
          ProductDetailPage.ImgState).selectedImages.length ∧
    ((⟨[⟨"a", "image/png", 1⟩, ⟨"b", "image/png", 1⟩, ⟨"c", "image/png", 1⟩],
        none⟩ : ProductDetailPage.ImgState).selectedImages.length = 3 →
      [⟨"d", "image/png", 1⟩] ≠ ([] : List JsFile) →
      ProductDetailPage.handleImageSelect
        ⟨[⟨"a", "image/png", 1⟩, ⟨"b", "image/png", 1⟩, ⟨"c", "image/png", 1⟩],
          none⟩
        [⟨"d", "image/png", 1⟩] =
        ({ selectedImages := [⟨"a", "image/png", 1⟩, ⟨"b", "image/png", 1⟩,
             ⟨"c", "image/png", 1⟩],
           uploadError := some "Maximum 3 images allowed" },
         ["Maximum 3 images allowed"])) ∧
    ([ProductDetailPage.ImgEv.select [⟨"a", "image/png", 1⟩,
        ⟨"b", "image/png", 1⟩, ⟨"c", "image/png", 1⟩]].foldl
      ProductDetailPage.imgStep
      ProductDetailPage.initImgState).selectedImages.length ≤ 3 :=
  C9_image_cap
    ⟨[⟨"a", "image/png", 1⟩, ⟨"b", "image/png", 1⟩, ⟨"c", "image/png", 1⟩],
      none⟩
    [⟨"d", "image/png", 1⟩]
    [ProductDetailPage.ImgEv.select [⟨"a", "image/png", 1⟩,
      ⟨"b", "image/png", 1⟩, ⟨"c", "image/png", 1⟩]]
